import Mathlib

/-!
Verification of the chat-turn engine of `backend/chat_service.py`:
context composition (`build_context_prompt`), context compaction
(window trim plus rolling summary), the one-tool-cycle orchestration
loop (`process_chat_message`), and the tool adapter dispatch
(`execute_function_call`).

External collaborators (the language model, the job-search data source,
the session store write) are modelled as oracle parameters of type
`Except String _`: an `.error` value stands for the collaborator raising
an exception at that suspension point.  Python dictionary lookups with
defaults become `Option.getD`; Python truthiness on strings, lists and
optional numbers is made explicit by small helper functions.
-/

namespace ChatService

/-- Message record as stored in a chat: a sender role and a text.
Timestamps and the optional selected-job annotation carried by the
Python dictionaries are omitted: no modelled property observes them. -/
structure Msg where
  sender : String
  message : String
deriving Repr, DecidableEq

/-- Chat context dictionary: profile digest, rolling summary, sliding
window of recent messages (source: the `context` dict of a chat). -/
structure ChatContext where
  permanent_context : String
  conversation_summary : String
  recent_messages : List Msg
deriving Repr, DecidableEq

/-- Python truthiness of an optional string: present and non-empty. -/
def pyTruthyOptStr : Option String → Bool
  | some s => s ≠ ""
  | none => false

/-- Python rendering of a possibly absent string inside an f-string:
a missing value prints as the literal None. -/
def pyOptStr : Option String → String
  | some s => s
  | none => "None"

/-- Python slice l[-n:] on a list. -/
def lastN (l : List α) (n : Nat) : List α :=
  l.drop (l.length - n)

/-- Embedding of `build_context_prompt` (chat_service.py lines 233-269).
Each Python `parts.append` under a truthiness test becomes one guarded
extension of the accumulated list; the result joins the parts with a
newline exactly as the source does. -/
def build_context_prompt (chat_context : ChatContext) (current_message : String)
    (selected_job_id : Option String) : String :=
  let parts : List String := []
  let parts := if chat_context.permanent_context ≠ "" then
      parts ++ ["[USER PROFILE]\n" ++ chat_context.permanent_context ++ "\n"]
    else parts
  let parts := if chat_context.conversation_summary ≠ "" then
      parts ++ ["[CONVERSATION HISTORY SUMMARY]\n" ++ chat_context.conversation_summary ++ "\n"]
    else parts
  let parts := if chat_context.recent_messages ≠ [] then
      parts ++ ["[RECENT CONVERSATION]"]
        ++ (lastN chat_context.recent_messages 10).map
             (fun msg => msg.sender.toUpper ++ ": " ++ msg.message)
        ++ [""]
    else parts
  let parts := if pyTruthyOptStr selected_job_id then
      parts ++ ["[CONTEXT: User has selected job with ID: " ++ selected_job_id.getD ""
                ++ ". Provide insights about this specific job.]\n"]
    else parts
  let parts := parts ++ ["[CURRENT MESSAGE]\nUSER: " ++ current_message]
  String.intercalate "\n" parts

/-- Specification-side section 1: the profile block, absent when the
permanent context is empty (spec section 4.1 item 1). -/
def profileSection (ctx : ChatContext) : Option String :=
  if ctx.permanent_context = "" then none
  else some ("[USER PROFILE]\n" ++ ctx.permanent_context ++ "\n")

/-- Specification-side section 2: the rolling-summary block, absent when
the rolling summary is empty (spec section 4.1 item 2). -/
def summarySection (ctx : ChatContext) : Option String :=
  if ctx.conversation_summary = "" then none
  else some ("[CONVERSATION HISTORY SUMMARY]\n" ++ ctx.conversation_summary ++ "\n")

/-- Specification-side section 3: the recent-window block, one line per
message oldest to newest rendered as ROLE: text, absent when the window
is empty (spec section 4.1 item 3). -/
def recentSection (ctx : ChatContext) : List String :=
  if ctx.recent_messages = [] then []
  else "[RECENT CONVERSATION]"
    :: (lastN ctx.recent_messages 10).map
         (fun msg => msg.sender.toUpper ++ ": " ++ msg.message)
    ++ [""]

/-- Specification-side section 4: the selection annotation, present only
when a selected-entity id was supplied (spec section 4.1 item 4). -/
def selectionSection (sel : Option String) : Option String :=
  match sel with
  | none => none
  | some jid =>
    if jid = "" then none
    else some ("[CONTEXT: User has selected job with ID: " ++ jid
               ++ ". Provide insights about this specific job.]\n")

/-- Specification-side section 5: the current-message block, always
present (spec section 4.1 item 5). -/
def currentSection (current_message : String) : String :=
  "[CURRENT MESSAGE]\nUSER: " ++ current_message

/-- C8: for every ChatContext, current user text and optional selected id,
the composed prompt is exactly the newline join of its sections in the
fixed order profile, rolling summary, recent window, selection
annotation, current message, and a section whose source is empty is
entirely absent (no empty headers). -/
theorem prompt_sections_fixed_order_and_omission
    (ctx : ChatContext) (current_message : String) (sel : Option String) :
    build_context_prompt ctx current_message sel =
      String.intercalate "\n"
        ((profileSection ctx).toList ++ (summarySection ctx).toList
          ++ recentSection ctx ++ (selectionSection sel).toList
          ++ [currentSection current_message]) ∧
    (profileSection ctx = none ↔ ctx.permanent_context = "") ∧
    (summarySection ctx = none ↔ ctx.conversation_summary = "") ∧
    (recentSection ctx = [] ↔ ctx.recent_messages = []) ∧
    (∀ jid, selectionSection (some jid) = none ↔ jid = "") ∧
    selectionSection none = none := by
  refine ⟨?_, ?_, ?_, ?_, ?_, rfl⟩
  · unfold build_context_prompt profileSection summarySection recentSection
      selectionSection currentSection pyTruthyOptStr
    by_cases h1 : ctx.permanent_context = "" <;>
      by_cases h2 : ctx.conversation_summary = "" <;>
        by_cases h3 : ctx.recent_messages = [] <;>
          cases sel with
          | none => simp [h1, h2, h3]
          | some jid => by_cases hj : jid = "" <;> simp [h1, h2, h3, hj]
  · unfold profileSection; split <;> simp_all
  · unfold summarySection; split <;> simp_all
  · unfold recentSection; split <;> simp_all
  · intro jid; unfold selectionSection; split <;> simp_all

/-- Python truthiness of an optional string field of a raw job dict. -/
def truthyStr : Option String → Bool
  | some s => s ≠ ""
  | none => false

/-- Python truthiness of an optional numeric field: present and nonzero. -/
def truthyNat : Option Nat → Bool
  | some n => n ≠ 0
  | none => false

/-- Helper for the Python format spec with a thousands separator applied
to a whole number: inserts a comma after every third digit, working over
the reversed digit list. -/
def insertCommasRev : List Char → Nat → List Char
  | [], _ => []
  | c :: rest, k =>
    if k == 3 then ',' :: c :: insertCommasRev rest 1
    else c :: insertCommasRev rest (k + 1)

/-- Python formatting of a whole number with a thousands separator and
zero decimal places, as used for the salary bounds. -/
def pyCommaFmt (n : Nat) : String :=
  String.mk (insertCommasRev (toString n).toList.reverse 0).reverse

/-- Raw job record as returned by the job-search data source; every
field is optional exactly as a Python dict key may be absent.  The
Qualifications and Responsibilities sub-lists of the job_highlights
dict are flattened into two list fields (absent key = empty list). -/
structure RawJob where
  job_title : Option String
  employer_name : Option String
  job_location : Option String
  job_salary : Option String
  job_min_salary : Option Nat
  job_max_salary : Option Nat
  job_description : Option String
  job_employment_type : Option String
  job_apply_link : Option String
  job_salary_period : Option String
  qualifications : List String
  responsibilities : List String
deriving Repr, DecidableEq

/-- Response envelope of the job-search data source: its data list. -/
structure SearchResponse where
  data : List RawJob
deriving Repr, DecidableEq

/-- Modelled from the spec: JobCard and the extractors
extract_job_card_data / extract_job_cards_from_response live in
jsearch_client.py, which is not among the provided sources.  Per spec
section 3 a JobCard is a denormalized display record with a capped
description length and a salary range populated only when both bounds
are present; per section 4.4 the UI card list is capped at the same
count (10) as the model-facing summary. -/
structure JobCard where
  job_title : Option String
  employer_name : Option String
  job_location : Option String
  job_description : String
  salary_range : Option String
deriving Repr, DecidableEq

/-- Modelled from the spec: see the JobCard doc comment; one raw result
becomes one denormalized card. -/
def extract_job_card_data (job : RawJob) : JobCard :=
  { job_title := job.job_title
    employer_name := job.employer_name
    job_location := job.job_location
    job_description := (job.job_description.getD "").take 2000
    salary_range :=
      if truthyNat job.job_min_salary && truthyNat job.job_max_salary then
        some ("$" ++ pyCommaFmt (job.job_min_salary.getD 0) ++ " - $"
              ++ pyCommaFmt (job.job_max_salary.getD 0))
      else none }

/-- Modelled from the spec: see the JobCard doc comment; the card list
is capped at the first 10 results. -/
def extract_job_cards_from_response (r : SearchResponse) : List JobCard :=
  (r.data.take 10).map extract_job_card_data

/-- Detailed model-facing payload built by the get_job_details branch of
execute_function_call (chat_service.py lines 333-347). -/
structure JobDetails where
  job_title : Option String
  employer_name : Option String
  job_location : Option String
  job_description : String
  job_employment_type : Option String
  job_apply_link : Option String
  job_qualifications : List String
  job_responsibilities : List String
  salary_range : Option String
deriving Repr, DecidableEq

/-- Model-facing result dict of a tool execution: a status string plus
the keys the executed branch populates. -/
structure ModelFacing where
  status : String
  message : Option String
  total_jobs_found : Option Nat
  jobs_summary : Option String
  details : Option JobDetails
deriving Repr, DecidableEq

/-- Second component returned by execute_function_call: Python None, a
list of job cards (search), or a single job card (details). -/
inductive CardsPayload where
  | pyNone
  | cards (l : List JobCard)
  | card (c : JobCard)
deriving Repr, DecidableEq

/-- Record of one invocation of the external job-search collaborator,
used to make tool execution observable in the embedding. -/
inductive ExtCall where
  | search (query : String) (num_pages : Nat) (country : String)
      (date_posted : String) (employment_types : Option String)
      (job_requirements : Option String) (work_from_home : Bool)
  | details (job_id : String) (country : String)
deriving Repr, DecidableEq

/-- Argument mapping of a tool request as produced by the model; an
absent key of the Python dict is a none field. -/
structure FunctionArgs where
  query : Option String
  country : Option String
  date_posted : Option String
  employment_types : Option String
  job_requirements : Option String
  work_from_home : Option Bool
  num_pages : Option Nat
  job_id : Option String
deriving Repr, DecidableEq

/-- The all-absent argument mapping. -/
def emptyArgs : FunctionArgs :=
  { query := none, country := none, date_posted := none,
    employment_types := none, job_requirements := none,
    work_from_home := none, num_pages := none, job_id := none }

/-- Argument coercion performed by the search_jobs branch of
execute_function_call (chat_service.py lines 286-294): each dict lookup
with a default, and num_pages clamped to 3. -/
def searchCallOf (args : FunctionArgs) : ExtCall :=
  ExtCall.search (args.query.getD "") (min (args.num_pages.getD 1) 3)
    (args.country.getD "us") (args.date_posted.getD "all")
    args.employment_types args.job_requirements
    (args.work_from_home.getD false)

/-- One-line summary built for each of the first 10 search results
(chat_service.py lines 304-310): title, employer, location, then the
salary range when both bounds are truthy, else the raw job_salary
string when that is truthy. -/
def jobSummaryLine (job : RawJob) : String :=
  let summary := "- " ++ pyOptStr job.job_title ++ " at " ++ pyOptStr job.employer_name
      ++ " (" ++ job.job_location.getD "Location not specified" ++ ")"
  if truthyStr job.job_salary || (truthyNat job.job_min_salary && truthyNat job.job_max_salary) then
    if truthyNat job.job_min_salary && truthyNat job.job_max_salary then
      summary ++ " - $" ++ pyCommaFmt (job.job_min_salary.getD 0) ++ "-$"
        ++ pyCommaFmt (job.job_max_salary.getD 0)
    else if truthyStr job.job_salary then
      summary ++ " - " ++ job.job_salary.getD ""
    else summary
  else summary

/-- Tool request carried by a content part: function name plus args. -/
structure FC where
  name : String
  args : FunctionArgs
deriving Repr, DecidableEq

/-- Content part of a model reply: free text or one tool request. -/
inductive Part where
  | text (s : String)
  | functionCall (fc : FC)
deriving Repr, DecidableEq

/-- Model reply: the content parts of its first candidate. -/
structure Reply where
  parts : List Part
deriving Repr, DecidableEq

/-- External collaborators of one chat turn, as oracle values: the two
model replies, the job-search data source, the summarization sub-call
and the session-store write.  An error value models the collaborator
raising an exception at that call site.  The summarizer maps the list
of messages handed to it to its generative output. -/
structure Oracles where
  firstReply : Except String Reply
  secondReply : Except String Reply
  searchSrc : ExtCall → Except String SearchResponse
  detailsSrc : String → String → Except String SearchResponse
  summarizer : List Msg → Except String String
  persist : Except String Unit

/-- Embedding of `execute_function_call` (chat_service.py lines
272-358).  Besides the model-facing result and the cards payload it
returns the list of data-source invocations it performed, so that tool
execution is observable; an error of the data source propagates as the
Python exception would. -/
def execute_function_call (o : Oracles) (function_name : String)
    (function_args : FunctionArgs) :
    Except String (ModelFacing × CardsPayload × List ExtCall) :=
  if function_name == "search_jobs" then
    match o.searchSrc (searchCallOf function_args) with
    | .error e => .error e
    | .ok result =>
      let job_cards := extract_job_cards_from_response result
      let jobs_data := result.data
      if jobs_data ≠ [] then
        .ok ({ status := "success", message := none,
               total_jobs_found := some jobs_data.length,
               jobs_summary :=
                 some (String.intercalate "\n" ((jobs_data.take 10).map jobSummaryLine)),
               details := none },
             CardsPayload.cards job_cards, [searchCallOf function_args])
      else
        .ok ({ status := "no_results",
               message := some "No jobs found matching the search criteria.",
               total_jobs_found := none, jobs_summary := none, details := none },
             CardsPayload.cards [], [searchCallOf function_args])
  else if function_name == "get_job_details" then
    let job_id := function_args.job_id.getD ""
    let country := function_args.country.getD "us"
    match o.detailsSrc job_id country with
    | .error e => .error e
    | .ok result =>
      match result.data with
      | job :: _ =>
        let job_details : JobDetails :=
          { job_title := job.job_title, employer_name := job.employer_name,
            job_location := job.job_location,
            job_description := (job.job_description.getD "").take 2000,
            job_employment_type := job.job_employment_type,
            job_apply_link := job.job_apply_link,
            job_qualifications := job.qualifications,
            job_responsibilities := job.responsibilities,
            salary_range :=
              if truthyNat job.job_min_salary && truthyNat job.job_max_salary then
                some ("$" ++ pyCommaFmt (job.job_min_salary.getD 0) ++ " - $"
                      ++ pyCommaFmt (job.job_max_salary.getD 0) ++ " "
                      ++ job.job_salary_period.getD "yearly")
              else none }
        .ok ({ status := "success", message := none, total_jobs_found := none,
               jobs_summary := none, details := some job_details },
             CardsPayload.card (extract_job_card_data job), [ExtCall.details job_id country])
      | [] =>
        .ok ({ status := "error", message := some "Job details not found.",
               total_jobs_found := none, jobs_summary := none, details := none },
             CardsPayload.pyNone, [ExtCall.details job_id country])
  else
    .ok ({ status := "error",
           message := some ("Unknown function: " ++ function_name),
           total_jobs_found := none, jobs_summary := none, details := none },
         CardsPayload.pyNone, [])

/-- View of a part as an optional tool request. -/
def Part.asFC : Part → Option FC
  | .functionCall fc => some fc
  | .text _ => none

/-- Text carried by a part (a tool-request part carries the empty
default of the underlying protobuf field). -/
def Part.textOf : Part → String
  | .text s => s
  | .functionCall _ => ""

/-- Outcome of the part-scanning loop of process_chat_message
(chat_service.py lines 444-448): the loop assigns function_call_part on
every tool-request part, so the last such part wins, and concatenates
the non-empty texts in order.  The recursion computes exactly that
final loop state. -/
def scanParts : List Part → Option FC × String
  | [] => (none, "")
  | Part.functionCall fc :: rest =>
    let r := scanParts rest
    (r.1 <|> some fc, r.2)
  | Part.text s :: rest =>
    let r := scanParts rest
    (r.1, (if s ≠ "" then s else "") ++ r.2)

/-- True when some content part of the reply is a tool request. -/
def Reply.hasFunctionCall (r : Reply) : Bool :=
  r.parts.any fun p => (Part.asFC p).isSome

/-- Concatenated text of all parts of a reply. -/
def Reply.joinedText (r : Reply) : String :=
  String.join (r.parts.map Part.textOf)

/-- Model of the text quick accessor of the client library on a reply:
it raises when the candidate has no parts or when a part is a tool
request rather than text, and otherwise returns the concatenation of
the text parts.  This is the behaviour the source relies on (the except
ValueError handler at chat_service.py lines 492-495, and the
text-extraction-by-exception pattern named in spec section 9). -/
def Reply.textAttr (r : Reply) : Except String String :=
  if r.parts = [] then .error "ValueError: response has no parts"
  else if r.hasFunctionCall then
    .error "ValueError: could not convert function call part to text"
  else .ok r.joinedText

/-- First non-empty text part of a part list, as extracted by the
except ValueError handler (chat_service.py lines 496-499). -/
def firstNonEmptyText : List Part → Option String
  | [] => none
  | Part.text s :: rest => if s ≠ "" then some s else firstNonEmptyText rest
  | Part.functionCall _ :: rest => firstNonEmptyText rest

/-- Canned fallback substituted when the second reply carries a tool
request and no non-empty text part (chat_service.py line 501). -/
def FOUND_FALLBACK : String :=
  "I found the information you requested. Let me know if you need anything else!"

/-- Generic apology returned when a caught exception aborts the turn
(chat_service.py line 586). -/
def APOLOGY : String :=
  "I apologize, but I encountered an error. Please try again."

/-- Embedding of `summarize_conversation` (chat_service.py lines
190-230): empty input short-circuits to the empty string, and a raised
exception of the generative sub-call is caught and turned into the
empty string. -/
def summarize_conversation (summarizer : List Msg → Except String String)
    (messages : List Msg) : String :=
  if messages = [] then ""
  else
    match summarizer messages with
    | .ok s => s
    | .error _ => ""

/-- Stored state of one chat session: full message log, context and
display name. -/
structure StoredChat where
  messages : List Msg
  context : ChatContext
  chat_name : String
deriving Repr, DecidableEq

/-- Value produced by the protected body of the turn when nothing
raises: the data the source persists plus the response fields. -/
structure TurnSuccess where
  message : String
  jobs : Option (List JobCard)
  selected : Option JobCard
  context : ChatContext
  messages : List Msg
  chat_name : String
  calls : List ExtCall
deriving Repr, DecidableEq

/-- Tail of the turn after the final response text is fixed
(chat_service.py lines 511-570): append the exchange to the window,
compact when the window exceeds 10 (prepending the previous summary as
a synthetic system entry when non-empty), trim to the last 10, append
both messages to the log, recompute the display name on the first real
exchange, and perform the session-store write. -/
def commitTurn (o : Oracles) (chat : StoredChat) (user_message : String)
    (final_response_text : String) (job_cards : Option (List JobCard))
    (selected : Option JobCard) (calls : List ExtCall) :
    Except String TurnSuccess :=
  let new_user_message : Msg := { sender := "user", message := user_message }
  let new_bot_message : Msg := { sender := "bot", message := final_response_text }
  let appended := chat.context.recent_messages ++ [new_user_message, new_bot_message]
  let compacted : String × List Msg :=
    if appended.length > 10 then
      let old_messages := appended.take (appended.length - 10)
      let summary1 :=
        if old_messages ≠ [] then
          let messages_to_summarize :=
            if chat.context.conversation_summary ≠ "" then
              { sender := "system",
                message := "Previous summary: " ++ chat.context.conversation_summary }
                :: old_messages
            else old_messages
          summarize_conversation o.summarizer messages_to_summarize
        else chat.context.conversation_summary
      (summary1, appended.drop (appended.length - 10))
    else (chat.context.conversation_summary, appended)
  let new_context : ChatContext :=
    { permanent_context := chat.context.permanent_context,
      conversation_summary := compacted.1,
      recent_messages := compacted.2 }
  let messages := chat.messages ++ [new_user_message, new_bot_message]
  let chat_name :=
    if messages.length ≤ 3 then
      user_message.take 50 ++ (if user_message.length > 50 then "..." else "")
    else chat.chat_name
  match o.persist with
  | .error e => .error e
  | .ok _ =>
    .ok { message := final_response_text, jobs := job_cards, selected := selected,
          context := new_context, messages := messages, chat_name := chat_name,
          calls := calls }

/-- Final text extracted from the reply that follows the tool cycle
(chat_service.py lines 491-501): the text accessor when it does not
raise, otherwise the first non-empty text part, otherwise the canned
fallback. -/
def secondFinalText (final_response : Reply) : String :=
  match final_response.textAttr with
  | .ok t => t
  | .error _ =>
    match firstNonEmptyText final_response.parts with
    | some t => t
    | none => FOUND_FALLBACK

/-- Protected body of the turn (the try block of process_chat_message,
chat_service.py lines 419-577): first model reply, part scan, at most
one tool cycle, second model reply after a tool cycle, the empty-text
fallback through the text accessor of the first reply, then the commit
tail.  Any error value propagates like the Python exception it models. -/
def tryTurn (o : Oracles) (chat : StoredChat) (user_message : String)
    (selected0 : Option JobCard) : Except String TurnSuccess :=
  match o.firstReply with
  | .error e => .error e
  | .ok response =>
    let step1 : Except String (String × Option (List JobCard) × Option JobCard × List ExtCall) :=
      if response.parts = [] then .ok ("", none, selected0, [])
      else
        match scanParts response.parts with
        | (some fc, _text_response) =>
          match execute_function_call o fc.name fc.args with
          | .error e => .error e
          | .ok (_function_result, cards, tcalls) =>
            let job_cards : Option (List JobCard) :=
              if fc.name == "search_jobs" then
                match cards with
                | .cards l => if l ≠ [] then some l else none
                | _ => none
              else none
            let selected1 : Option JobCard :=
              if fc.name == "search_jobs" then selected0
              else if fc.name == "get_job_details" then
                match cards with
                | .card c => some c
                | _ => selected0
              else selected0
            match o.secondReply with
            | .error e => .error e
            | .ok final_response =>
              .ok (secondFinalText final_response, job_cards, selected1, tcalls)
        | (none, text_response) => .ok (text_response, none, selected0, [])
    match step1 with
    | .error e => .error e
    | .ok (final_text0, job_cards, selected1, tcalls) =>
      let finalTextE : Except String String :=
        if final_text0 = "" then response.textAttr else .ok final_text0
      match finalTextE with
      | .error e => .error e
      | .ok final_response_text =>
        commitTurn o chat user_message final_response_text job_cards selected1 tcalls

/-- Response and post-state of one chat turn.  On the caught-exception
path the stored chat is unchanged, the message is the apology and the
error field records the exception; on success the error field is none
and the stored chat carries the persisted messages, context and name. -/
structure ProcessResult where
  stored : StoredChat
  message : String
  jobs : Option (List JobCard)
  selected_job_details : Option JobCard
  chat_name : Option String
  error : Option String
  calls : List ExtCall
deriving Repr, DecidableEq

/-- Embedding of `process_chat_message` (chat_service.py lines
361-589) for a resolved chat.  The selected-job pre-fetch (lines
408-413) happens before the try block, so its exception propagates
uncaught: that is the outer Except layer.  Exceptions inside tryTurn
are caught and produce the apology result with the stored chat
untouched. -/
def process_chat_message (o : Oracles) (chat : StoredChat) (user_message : String)
    (selected_job_id : Option String) : Except String ProcessResult :=
  let pre : Except String (Option JobCard × List ExtCall) :=
    if pyTruthyOptStr selected_job_id then
      let jid := selected_job_id.getD ""
      match o.detailsSrc jid "us" with
      | .error e => .error e
      | .ok job_result =>
        match job_result.data with
        | j :: _ => .ok (some (extract_job_card_data j), [ExtCall.details jid "us"])
        | [] => .ok (none, [ExtCall.details jid "us"])
    else .ok (none, [])
  match pre with
  | .error e => .error e
  | .ok (selected0, preCalls) =>
    match tryTurn o chat user_message selected0 with
    | .ok t =>
      .ok { stored := { messages := t.messages, context := t.context,
                        chat_name := t.chat_name },
            message := t.message, jobs := t.jobs,
            selected_job_details := t.selected,
            chat_name := some t.chat_name, error := none,
            calls := preCalls ++ t.calls }
    | .error e =>
      .ok { stored := chat, message := APOLOGY, jobs := none,
            selected_job_details := none, chat_name := none,
            error := some e, calls := preCalls }

/-! ## Helper lemmas -/

theorem getLast?_cons_orElse (a : α) (l : List α) :
    (a :: l).getLast? = (l.getLast? <|> some a) := by
  rw [List.getLast?_cons]
  cases h : l.getLast? <;> simp [h]

theorem foldl_append_str (l : List String) :
    ∀ s : String, List.foldl (fun r x => r ++ x) s l
      = s ++ List.foldl (fun r x => r ++ x) "" l := by
  induction l with
  | nil => intro s; simp
  | cons a t ih =>
    intro s
    simp only [List.foldl]
    rw [ih (s ++ a), ih ("" ++ a)]
    simp [String.append_assoc]

/-- The part-scanning loop keeps the last tool-request part and the
concatenation of the texts. -/
theorem scanParts_eq (parts : List Part) :
    scanParts parts =
      ((parts.filterMap Part.asFC).getLast?, String.join (parts.map Part.textOf)) := by
  induction parts with
  | nil => rfl
  | cons p rest ih =>
    cases p with
    | text s =>
      by_cases hs : s = "" <;>
        simp [scanParts, ih, Part.asFC, Part.textOf, String.join, hs,
          foldl_append_str (rest.map Part.textOf) s]
    | functionCall fc =>
      simp [scanParts, ih, Part.asFC, Part.textOf, String.join,
        getLast?_cons_orElse]

theorem firstNonEmptyText_ne_empty (l : List Part) (t : String)
    (h : firstNonEmptyText l = some t) : t ≠ "" := by
  induction l with
  | nil => simp [firstNonEmptyText] at h
  | cons p rest ih =>
    cases p with
    | text s =>
      by_cases hs : s = ""
      · simp [firstNonEmptyText, hs] at h
        exact ih h
      · simp [firstNonEmptyText, hs] at h
        simpa [← h] using hs
    | functionCall fc =>
      simp [firstNonEmptyText] at h
      exact ih h

/-- Shape of a successful commit: the produced record is determined by
the inputs, and persistence must have succeeded. -/
theorem commitTurn_ok (o : Oracles) (chat : StoredChat) (um ft : String)
    (jc : Option (List JobCard)) (sel : Option JobCard) (cs : List ExtCall)
    (t : TurnSuccess) (h : commitTurn o chat um ft jc sel cs = .ok t) :
    t.message = ft ∧ t.calls = cs ∧
    t.messages = chat.messages ++ [(Msg.mk "user" um), (Msg.mk "bot" ft)] ∧
    t.context.recent_messages =
      (let appended := chat.context.recent_messages ++ [(Msg.mk "user" um), (Msg.mk "bot" ft)]
       if appended.length > 10 then appended.drop (appended.length - 10) else appended) ∧
    t.context.conversation_summary =
      (let appended := chat.context.recent_messages ++ [(Msg.mk "user" um), (Msg.mk "bot" ft)]
       if appended.length > 10 then
         (if appended.take (appended.length - 10) ≠ [] then
            summarize_conversation o.summarizer
              (if chat.context.conversation_summary ≠ "" then
                 (Msg.mk "system" ("Previous summary: " ++ chat.context.conversation_summary))
                   :: appended.take (appended.length - 10)
               else appended.take (appended.length - 10))
          else chat.context.conversation_summary)
       else chat.context.conversation_summary) := by
  unfold commitTurn at h
  cases hp : o.persist with
  | error e => rw [hp] at h; exact absurd h (by simp)
  | ok u =>
    rw [hp] at h
    simp only [Except.ok.injEq] at h
    subst h
    refine ⟨rfl, rfl, rfl, ?_, ?_⟩ <;>
      · dsimp only
        split <;> rfl

/-- Every successful protected turn body went through the commit tail
with the final text it reports. -/
theorem tryTurn_ok_commit (o : Oracles) (chat : StoredChat) (um : String)
    (sel0 : Option JobCard) (t : TurnSuccess)
    (h : tryTurn o chat um sel0 = .ok t) :
    ∃ ft jc sel1 cs, commitTurn o chat um ft jc sel1 cs = .ok t := by
  unfold tryTurn at h
  cases h1 : o.firstReply with
  | error e => rw [h1] at h; exact absurd h (by simp)
  | ok response =>
    rw [h1] at h
    simp only at h
    split at h
    · exact absurd h (by simp)
    · split at h
      · exact absurd h (by simp)
      · exact ⟨_, _, _, _, h⟩

/-! ## Concrete sample data for counterexamples and witnesses -/

/-- A full window: ten alternating user/bot messages. -/
def msgsTen : List Msg :=
  (List.range 10).map fun i =>
    { sender := if i % 2 == 0 then "user" else "bot", message := "m" ++ toString i }

/-- Chat with a non-empty rolling summary and a full window, about to
overflow on the next turn. -/
def chatFull : StoredChat :=
  { messages := msgsTen,
    context := { permanent_context := "Profile digest",
                 conversation_summary := "User wants backend roles",
                 recent_messages := msgsTen },
    chat_name := "Backend search" }

/-- Oracles of a turn whose summarization sub-call raises while
everything else succeeds: plain-text first reply, working store. -/
def oSummFail : Oracles :=
  { firstReply := .ok { parts := [Part.text "Sure, here is more advice."] },
    secondReply := .ok { parts := [] },
    searchSrc := fun _ => .error "unused",
    detailsSrc := fun _ _ => .error "unused",
    summarizer := fun _ => .error "ModelCommunicationError: summarizer down",
    persist := .ok () }

/-- C1: the claim requires that when the window overflows and the
summarization sub-call raises, the stored conversation summary equals
its pre-turn value.  The code instead catches the exception inside
summarize_conversation, returns the empty string, and stores it: at
this failing input the turn completes (error field none) with the
stored summary erased to the empty string although the pre-turn summary
was non-empty.  This contradicts the failure policy the spec states in
sections 4.2 and 7, and the spec itself flags the overwrite as a bug in
section 9, so the code, not the claim, is wrong. -/
theorem compaction_failure_erases_summary :
    (process_chat_message oSummFail chatFull "next question" none).map
        (fun r => (r.stored.context.conversation_summary, r.error)) =
      .ok ("", none) ∧
    chatFull.context.conversation_summary = "User wants backend roles" :=
  ⟨rfl, rfl⟩

/-- C4: whenever an exception raised inside the orchestration body
(model call, tool execution or persistence) is caught — which in the
embedding is exactly when the error field of the result is set — the turn
aborts without any persistence write: the stored chat (messages,
context and display name) is exactly the pre-turn one, the caller
receives the generic apology and no job cards. -/
theorem orchestration_exception_is_atomic
    (o : Oracles) (chat : StoredChat) (um : String) (sel : Option String)
    (R : ProcessResult)
    (hok : process_chat_message o chat um sel = .ok R)
    (herr : R.error ≠ none) :
    R.stored = chat ∧ R.message = APOLOGY ∧ R.jobs = none := by
  unfold process_chat_message at hok
  simp only at hok
  repeat' split at hok
  all_goals
    first
    | exact Except.noConfusion hok
    | · simp only [Except.ok.injEq] at hok
        subst hok
        first
        | exact absurd rfl herr
        | exact ⟨rfl, rfl, rfl⟩

/-- Oracles of a turn whose single tool execution hits an unreachable
data source. -/
def oToolFail : Oracles :=
  { firstReply := .ok { parts :=
      [Part.functionCall { name := "search_jobs",
                           args := { emptyArgs with query := some "backend developer" } }] },
    secondReply := .ok { parts := [Part.text "unreached"] },
    searchSrc := fun _ => .error "ToolExecutionError: data source unreachable",
    detailsSrc := fun _ _ => .error "unused",
    summarizer := fun _ => .ok "summary",
    persist := .ok () }

/-- Result of the failing-tool turn, computed by evaluation. -/
def rToolFail : ProcessResult :=
  { stored := chatFull, message := APOLOGY, jobs := none,
    selected_job_details := none, chat_name := none,
    error := some "ToolExecutionError: data source unreachable", calls := [] }

/-- Witness for C4 at a concrete failing tool execution. -/
theorem orchestration_exception_is_atomic_witness :
    rToolFail.stored = chatFull ∧ rToolFail.message = APOLOGY ∧ rToolFail.jobs = none :=
  orchestration_exception_is_atomic oToolFail chatFull "find jobs" none rToolFail rfl
    (by simp [rToolFail])

/-- A turn without a selected job that succeeds comes from a successful
protected body, whose persisted fields the result reports. -/
theorem process_ok_success (o : Oracles) (chat : StoredChat) (um : String)
    (R : ProcessResult) (hok : process_chat_message o chat um none = .ok R)
    (hsucc : R.error = none) :
    ∃ t, tryTurn o chat um none = .ok t ∧ R.message = t.message ∧
      R.stored = ⟨t.messages, t.context, t.chat_name⟩ ∧ R.jobs = t.jobs ∧
      R.calls = t.calls ∧ R.selected_job_details = t.selected := by
  unfold process_chat_message at hok
  have h0 : pyTruthyOptStr none = false := rfl
  rw [h0] at hok
  simp only [Bool.false_eq_true, if_false] at hok
  cases htt : tryTurn o chat um none with
  | error e =>
    rw [htt] at hok
    simp only [Except.ok.injEq] at hok
    subst hok
    simp at hsucc
  | ok t =>
    rw [htt] at hok
    simp only [Except.ok.injEq] at hok
    subst hok
    exact ⟨t, rfl, rfl, rfl, rfl, by simp, rfl⟩

/-- C5: after every completed turn the stored recent window has length
at most 10, and whenever appending the new user/bot exchange makes it
exceed 10 the stored window is exactly the last 10 entries while the
overflow (all entries beyond the last 10, preceded by the previous
summary as a synthetic system entry when one exists) is handed to the
summarization sub-call whose output becomes the stored rolling
summary. -/
theorem recent_window_capped_and_compacted
    (o : Oracles) (chat : StoredChat) (um : String) (R : ProcessResult)
    (hok : process_chat_message o chat um none = .ok R)
    (hsucc : R.error = none) :
    R.stored.context.recent_messages.length ≤ 10 ∧
    ((chat.context.recent_messages ++ [(Msg.mk "user" um), (Msg.mk "bot" R.message)]).length > 10 →
      R.stored.context.recent_messages =
        (chat.context.recent_messages ++ [(Msg.mk "user" um), (Msg.mk "bot" R.message)]).drop
          ((chat.context.recent_messages ++ [(Msg.mk "user" um), (Msg.mk "bot" R.message)]).length - 10) ∧
      R.stored.context.conversation_summary =
        summarize_conversation o.summarizer
          (if chat.context.conversation_summary ≠ "" then
             (Msg.mk "system" ("Previous summary: " ++ chat.context.conversation_summary)) ::
               (chat.context.recent_messages ++ [(Msg.mk "user" um), (Msg.mk "bot" R.message)]).take
                 ((chat.context.recent_messages ++ [(Msg.mk "user" um), (Msg.mk "bot" R.message)]).length - 10)
           else
             (chat.context.recent_messages ++ [(Msg.mk "user" um), (Msg.mk "bot" R.message)]).take
               ((chat.context.recent_messages ++ [(Msg.mk "user" um), (Msg.mk "bot" R.message)]).length - 10))) := by
  obtain ⟨t, htt, hmsg, hstored, hjobs, hcalls, hsel⟩ :=
    process_ok_success o chat um R hok hsucc
  obtain ⟨ft, jc, sel1, cs, hc⟩ := tryTurn_ok_commit o chat um none t htt
  obtain ⟨hft, hcs, hmsgs, hrecent, hsummary⟩ := commitTurn_ok o chat um ft jc sel1 cs t hc
  have hRmsg : R.message = ft := hmsg.trans hft
  have hctx : R.stored.context = t.context := by rw [hstored]
  rw [hctx, hRmsg]
  dsimp only at hrecent hsummary
  constructor
  · rw [hrecent]
    split
    · next hgt =>
      rw [List.length_drop]
      omega
    · next hle =>
      omega
  · intro hover
    constructor
    · rw [hrecent, if_pos hover]
    · rw [hsummary, if_pos hover]
      have htk : (chat.context.recent_messages ++ [(Msg.mk "user" um), (Msg.mk "bot" ft)]).take
          ((chat.context.recent_messages ++ [(Msg.mk "user" um), (Msg.mk "bot" ft)]).length - 10) ≠ [] := by
        have : ((chat.context.recent_messages ++ [(Msg.mk "user" um), (Msg.mk "bot" ft)]).take
            ((chat.context.recent_messages ++ [(Msg.mk "user" um), (Msg.mk "bot" ft)]).length - 10)).length ≠ 0 := by
          rw [List.length_take]
          omega
        intro hnil
        rw [hnil] at this
        exact this rfl
      rw [if_pos htk]

/-- Oracles of a plain-text turn with a working summarizer. -/
def oPlainTurn : Oracles :=
  { firstReply := .ok { parts := [Part.text "Here is some advice."] },
    secondReply := .ok { parts := [] },
    searchSrc := fun _ => .error "unused",
    detailsSrc := fun _ _ => .error "unused",
    summarizer := fun _ => .ok "Folded summary of the oldest exchange",
    persist := .ok () }

/-- Result of the compacting turn at chatFull, computed by evaluation. -/
def rCompact : ProcessResult :=
  { stored :=
      { messages := msgsTen ++ [(Msg.mk "user" "anything newer?"), (Msg.mk "bot" "Here is some advice.")],
        context :=
          { permanent_context := "Profile digest",
            conversation_summary := "Folded summary of the oldest exchange",
            recent_messages :=
              (msgsTen ++ [(Msg.mk "user" "anything newer?"), (Msg.mk "bot" "Here is some advice.")]).drop 2 },
        chat_name := "Backend search" },
    message := "Here is some advice.", jobs := none, selected_job_details := none,
    chat_name := some "Backend search", error := none, calls := [] }

/-- Witness for C5: the concrete compaction turn at window length 12. -/
theorem recent_window_capped_and_compacted_witness :
    rCompact.stored.context.recent_messages.length ≤ 10 ∧
    ((chatFull.context.recent_messages ++
        [(Msg.mk "user" "anything newer?"), (Msg.mk "bot" rCompact.message)]).length > 10 →
      rCompact.stored.context.recent_messages =
        (chatFull.context.recent_messages ++
            [(Msg.mk "user" "anything newer?"), (Msg.mk "bot" rCompact.message)]).drop
          ((chatFull.context.recent_messages ++
              [(Msg.mk "user" "anything newer?"), (Msg.mk "bot" rCompact.message)]).length - 10) ∧
      rCompact.stored.context.conversation_summary =
        summarize_conversation oPlainTurn.summarizer
          (if chatFull.context.conversation_summary ≠ "" then
             (Msg.mk "system" ("Previous summary: " ++ chatFull.context.conversation_summary)) ::
               (chatFull.context.recent_messages ++
                   [(Msg.mk "user" "anything newer?"), (Msg.mk "bot" rCompact.message)]).take
                 ((chatFull.context.recent_messages ++
                     [(Msg.mk "user" "anything newer?"), (Msg.mk "bot" rCompact.message)]).length - 10)
           else
             (chatFull.context.recent_messages ++
                 [(Msg.mk "user" "anything newer?"), (Msg.mk "bot" rCompact.message)]).take
               ((chatFull.context.recent_messages ++
                   [(Msg.mk "user" "anything newer?"), (Msg.mk "bot" rCompact.message)]).length - 10))) :=
  recent_window_capped_and_compacted oPlainTurn chatFull "anything newer?" rCompact rfl rfl

/-- A reply without tool-request part yields no scanned function call
and the concatenation of its texts. -/
theorem scanParts_no_fc (r : Reply) (h : r.hasFunctionCall = false) :
    scanParts r.parts = (none, r.joinedText) := by
  have hfm : r.parts.filterMap Part.asFC = [] := by
    rw [List.filterMap_eq_nil_iff]
    intro p hp
    cases p with
    | text s => rfl
    | functionCall fc =>
      exfalso
      have : r.hasFunctionCall = true := by
        unfold Reply.hasFunctionCall
        rw [List.any_eq_true]
        exact ⟨_, hp, rfl⟩
      rw [h] at this
      exact Bool.noConfusion this
  rw [scanParts_eq, hfm]
  rfl

/-- The text accessor on a non-empty reply without tool request returns
the joined text. -/
theorem textAttr_no_fc (r : Reply) (h2 : r.parts ≠ []) (h3 : r.hasFunctionCall = false) :
    r.textAttr = .ok r.joinedText := by
  unfold Reply.textAttr
  rw [if_neg h2, h3]
  simp

/-- C7: a first model reply that contains no tool request makes the
turn return, byte for byte, the concatenated text of that reply: no
postprocessing and no re-wrapping happens on the no-tool path. -/
theorem no_tool_reply_text_verbatim
    (o : Oracles) (chat : StoredChat) (um : String) (r : Reply)
    (h1 : o.firstReply = .ok r) (h2 : r.parts ≠ [])
    (h3 : r.hasFunctionCall = false) (h4 : o.persist = .ok ()) :
    (process_chat_message o chat um none).map ProcessResult.message = .ok r.joinedText := by
  have htry : tryTurn o chat um none = commitTurn o chat um r.joinedText none none [] := by
    unfold tryTurn
    rw [h1]
    simp only [scanParts_no_fc r h3, if_neg h2]
    by_cases hj : r.joinedText = ""
    · simp [hj, textAttr_no_fc r h2 h3]
    · simp [hj]
  unfold process_chat_message
  rw [show pyTruthyOptStr none = false from rfl]
  simp only [Bool.false_eq_true, if_false]
  rw [htry]
  unfold commitTurn
  rw [h4]
  simp [Except.map]

/-- Oracles of a turn whose first reply is plain text in two parts. -/
def oTwoTexts : Oracles :=
  { firstReply := .ok { parts := [Part.text "Hi ", Part.text "there."] },
    secondReply := .ok { parts := [] },
    searchSrc := fun _ => .error "unused",
    detailsSrc := fun _ _ => .error "unused",
    summarizer := fun _ => .ok "s",
    persist := .ok () }

/-- Witness for C7 at a concrete two-part text reply. -/
theorem no_tool_reply_text_verbatim_witness :
    (process_chat_message oTwoTexts chatFull "hello" none).map ProcessResult.message =
      .ok (Reply.joinedText { parts := [Part.text "Hi ", Part.text "there."] }) :=
  no_tool_reply_text_verbatim oTwoTexts chatFull "hello"
    { parts := [Part.text "Hi ", Part.text "there."] } rfl (by simp) rfl rfl

/-- Reduction of the protected body when the scan found a tool request,
that execution succeeded, the second reply arrived and its extracted
final text is non-empty: the turn commits with that text, the cards and
the calls of the one executed tool. -/
theorem tryTurn_tool_cycle
    (o : Oracles) (chat : StoredChat) (um : String) (sel0 : Option JobCard)
    (r : Reply) (fc : FC) (mf : ModelFacing) (cards : CardsPayload)
    (tcalls : List ExtCall) (r2 : Reply)
    (h1 : o.firstReply = .ok r)
    (h2 : (scanParts r.parts).1 = some fc)
    (h3 : execute_function_call o fc.name fc.args = .ok (mf, cards, tcalls))
    (h4 : o.secondReply = .ok r2)
    (h5 : secondFinalText r2 ≠ "") :
    tryTurn o chat um sel0 =
      commitTurn o chat um (secondFinalText r2)
        (if fc.name == "search_jobs" then
           match cards with
           | CardsPayload.cards l => if l ≠ [] then some l else none
           | _ => none
         else none)
        (if fc.name == "search_jobs" then sel0
         else if fc.name == "get_job_details" then
           match cards with
           | CardsPayload.card c => some c
           | _ => sel0
         else sel0)
        tcalls := by
  have hne : r.parts ≠ [] := by
    intro hp
    rw [hp] at h2
    simp [scanParts] at h2
  rcases hsc : scanParts r.parts with ⟨f, txt⟩
  rw [hsc] at h2
  simp only at h2
  subst h2
  unfold tryTurn
  rw [h1]
  simp only [if_neg hne, hsc, h3, h4, if_neg h5]
  cases cards <;> rfl

/-- Tool requests carried by a reply with two tool-request parts: the
first asks for a job search, the second for job details. -/
def fcSearchX : FC :=
  { name := "search_jobs", args := { emptyArgs with query := some "frontend developer" } }

/-- Second tool request of the two-tool reply. -/
def fcDetailsX : FC :=
  { name := "get_job_details", args := { emptyArgs with job_id := some "JOB1" } }

/-- Oracles of a turn whose first reply carries two tool requests. -/
def oTwoTools : Oracles :=
  { firstReply := .ok { parts := [Part.functionCall fcSearchX, Part.functionCall fcDetailsX] },
    secondReply := .ok { parts := [Part.text "done"] },
    searchSrc := fun _ => .ok { data := [] },
    detailsSrc := fun _ _ => .ok { data := [] },
    summarizer := fun _ => .ok "s",
    persist := .ok () }

/-- C2 counterexample: in a reply whose parts carry two tool requests,
the first being the search request, the turn executes only the details
call — the scanning loop overwrites the kept request on every
tool-request part, so the last one wins, not the first as claimed. -/
theorem first_tool_request_not_executed :
    (process_chat_message oTwoTools chatFull "hi" none).map ProcessResult.calls =
      .ok [ExtCall.details "JOB1" "us"] ∧
    (Reply.parts
        { parts := [Part.functionCall fcSearchX, Part.functionCall fcDetailsX] }).filterMap
      Part.asFC = [fcSearchX, fcDetailsX] ∧
    fcSearchX.name = "search_jobs" ∧
    searchCallOf fcSearchX.args =
      ExtCall.search "frontend developer" 1 "us" "all" none none false ∧
    [ExtCall.details "JOB1" "us"] ≠
      [ExtCall.search "frontend developer" 1 "us" "all" none none false] :=
  ⟨rfl, rfl, rfl, rfl, by decide⟩

/-- C2 amended: when a reply carries tool requests, the orchestration
executes exactly the tool request of the LAST tool-request part of the
reply, and no other: the external calls of a successful turn are
exactly those of that one execution. -/
theorem last_tool_request_executed
    (o : Oracles) (chat : StoredChat) (um : String)
    (r : Reply) (fc : FC) (mf : ModelFacing) (cards : CardsPayload)
    (tcalls : List ExtCall) (r2 : Reply)
    (h1 : o.firstReply = .ok r)
    (h2 : (r.parts.filterMap Part.asFC).getLast? = some fc)
    (h3 : execute_function_call o fc.name fc.args = .ok (mf, cards, tcalls))
    (h4 : o.secondReply = .ok r2)
    (h5 : secondFinalText r2 ≠ "")
    (h6 : o.persist = .ok ()) :
    (process_chat_message o chat um none).map ProcessResult.calls = .ok tcalls := by
  have h2s : (scanParts r.parts).1 = some fc := by rw [scanParts_eq]; exact h2
  have htry := tryTurn_tool_cycle o chat um none r fc mf cards tcalls r2 h1 h2s h3 h4 h5
  unfold process_chat_message
  rw [show pyTruthyOptStr none = false from rfl]
  simp only [Bool.false_eq_true, if_false]
  rw [htry]
  unfold commitTurn
  rw [h6]
  simp [Except.map]

/-- Witness for C2 amended at the concrete two-tool reply. -/
theorem last_tool_request_executed_witness :
    (process_chat_message oTwoTools chatFull "hi again" none).map ProcessResult.calls =
      .ok [ExtCall.details "JOB1" "us"] :=
  last_tool_request_executed oTwoTools chatFull "hi again"
    { parts := [Part.functionCall fcSearchX, Part.functionCall fcDetailsX] }
    fcDetailsX
    { status := "error", message := some "Job details not found.",
      total_jobs_found := none, jobs_summary := none, details := none }
    CardsPayload.pyNone [ExtCall.details "JOB1" "us"]
    { parts := [Part.text "done"] }
    rfl rfl rfl rfl (by decide) rfl

/-- When the reply after the tool cycle itself carries a tool request,
the text accessor raises, so the extracted final text is the first
non-empty text part, or the canned fallback if none. -/
theorem secondFinalText_fc (r2 : Reply) (h : r2.hasFunctionCall = true) :
    secondFinalText r2 = (firstNonEmptyText r2.parts).getD FOUND_FALLBACK := by
  have hne : r2.parts ≠ [] := by
    intro hp
    unfold Reply.hasFunctionCall at h
    rw [hp] at h
    simp at h
  unfold secondFinalText Reply.textAttr
  rw [if_neg hne, h]
  simp only [if_true]
  cases firstNonEmptyText r2.parts <;> simp [Option.getD]

/-- The extracted final text after a second tool request is never the
empty string. -/
theorem secondFinalText_ne_empty_of_fc (r2 : Reply) (h : r2.hasFunctionCall = true) :
    secondFinalText r2 ≠ "" := by
  rw [secondFinalText_fc r2 h]
  cases hf : firstNonEmptyText r2.parts with
  | none =>
    simp only [Option.getD]
    decide
  | some t => simpa [Option.getD] using firstNonEmptyText_ne_empty _ _ hf

/-- Tool request of the first reply in the second-tool-request turn. -/
def fcSearchY : FC :=
  { name := "search_jobs", args := { emptyArgs with query := some "data scientist" } }

/-- Second reply carrying another tool request along two text parts. -/
def replySecondMixed : Reply :=
  { parts := [Part.functionCall { name := "get_job_details", args := emptyArgs },
              Part.text "A", Part.text "B"] }

/-- Oracles of a turn whose second reply again requests a tool. -/
def oSecondToolReq : Oracles :=
  { firstReply := .ok { parts := [Part.functionCall fcSearchY] },
    secondReply := .ok replySecondMixed,
    searchSrc := fun _ => .ok { data := [] },
    detailsSrc := fun _ _ => .error "unused",
    summarizer := fun _ => .ok "s",
    persist := .ok () }

/-- C6 counterexample: the second reply carries a tool request together
with the accompanying text AB split over two text parts; the turn
returns only A, the first non-empty text part, not the accompanying
text AB the claim promises. -/
theorem second_reply_accompanying_text_truncated :
    (process_chat_message oSecondToolReq chatFull "show jobs" none).map
        ProcessResult.message = .ok "A" ∧
    replySecondMixed.joinedText = "AB" ∧
    replySecondMixed.hasFunctionCall = true ∧
    ("A" : String) ≠ "AB" :=
  ⟨rfl, rfl, rfl, by decide⟩

/-- C6 amended: when the second reply (after one tool cycle) again
carries a tool request, that second tool is never executed — the calls
of the turn are exactly those of the first cycle — and the final text
is the FIRST non-empty text part of that reply if one exists, otherwise
the fixed canned fallback string. -/
theorem second_tool_request_ignored_text_policy
    (o : Oracles) (chat : StoredChat) (um : String)
    (r : Reply) (fc : FC) (mf : ModelFacing) (cards : CardsPayload)
    (tcalls : List ExtCall) (r2 : Reply)
    (h1 : o.firstReply = .ok r)
    (h2 : (scanParts r.parts).1 = some fc)
    (h3 : execute_function_call o fc.name fc.args = .ok (mf, cards, tcalls))
    (h4 : o.secondReply = .ok r2)
    (h5 : r2.hasFunctionCall = true)
    (h6 : o.persist = .ok ()) :
    (process_chat_message o chat um none).map ProcessResult.message =
      .ok ((firstNonEmptyText r2.parts).getD FOUND_FALLBACK) ∧
    (process_chat_message o chat um none).map ProcessResult.calls = .ok tcalls := by
  have hne := secondFinalText_ne_empty_of_fc r2 h5
  have htry := tryTurn_tool_cycle o chat um none r fc mf cards tcalls r2 h1 h2 h3 h4 hne
  have hft := secondFinalText_fc r2 h5
  constructor <;>
  · unfold process_chat_message
    rw [show pyTruthyOptStr none = false from rfl]
    simp only [Bool.false_eq_true, if_false]
    rw [htry]
    unfold commitTurn
    rw [h6]
    simp [Except.map, hft]

/-- Witness for C6 amended at the concrete mixed second reply. -/
theorem second_tool_request_ignored_text_policy_witness :
    (process_chat_message oSecondToolReq chatFull "more jobs" none).map
        ProcessResult.message =
      .ok ((firstNonEmptyText replySecondMixed.parts).getD FOUND_FALLBACK) ∧
    (process_chat_message oSecondToolReq chatFull "more jobs" none).map
        ProcessResult.calls =
      .ok [searchCallOf fcSearchY.args] :=
  second_tool_request_ignored_text_policy oSecondToolReq chatFull "more jobs"
    { parts := [Part.functionCall fcSearchY] } fcSearchY
    { status := "no_results",
      message := some "No jobs found matching the search criteria.",
      total_jobs_found := none, jobs_summary := none, details := none }
    (CardsPayload.cards []) [searchCallOf fcSearchY.args]
    replySecondMixed
    rfl rfl rfl rfl rfl rfl

/-- Oracles whose data source answers every call with no results. -/
def oEmptySrc : Oracles :=
  { firstReply := .error "unused", secondReply := .error "unused",
    searchSrc := fun _ => .ok { data := [] },
    detailsSrc := fun _ _ => .ok { data := [] },
    summarizer := fun _ => .error "unused", persist := .ok () }

/-- C3 counterexample: with the required query argument missing, the
tool call does not fail with an argument error; it executes the data
source with the empty-string default (the non-empty call trace) and
returns a normal payload. -/
theorem missing_query_executes_with_default :
    execute_function_call oEmptySrc "search_jobs" emptyArgs =
      .ok ({ status := "no_results",
             message := some "No jobs found matching the search criteria.",
             total_jobs_found := none, jobs_summary := none, details := none },
           CardsPayload.cards [],
           [ExtCall.search "" 1 "us" "all" none none false]) ∧
    [ExtCall.search "" 1 "us" "all" none none false] ≠ ([] : List ExtCall) :=
  ⟨rfl, by decide⟩

/-- A search tool execution whose data source answers always performs
exactly the coerced search call. -/
theorem execute_search_trace (o : Oracles) (args : FunctionArgs)
    (resp : SearchResponse) (h : o.searchSrc (searchCallOf args) = .ok resp) :
    (execute_function_call o "search_jobs" args).map (fun x => x.2.2) =
      .ok [searchCallOf args] := by
  unfold execute_function_call
  have hc : (("search_jobs" : String) == "search_jobs") = true := by decide
  rw [if_pos hc, h]
  dsimp only
  split <;> simp [Except.map]

/-- A details tool execution whose data source answers always performs
exactly the coerced details call. -/
theorem execute_details_trace (o : Oracles) (args : FunctionArgs)
    (resp : SearchResponse)
    (h : o.detailsSrc (args.job_id.getD "") (args.country.getD "us") = .ok resp) :
    (execute_function_call o "get_job_details" args).map (fun x => x.2.2) =
      .ok [ExtCall.details (args.job_id.getD "") (args.country.getD "us")] := by
  unfold execute_function_call
  have hc1 : ¬ ((("get_job_details" : String) == "search_jobs") = true) := by decide
  have hc2 : (("get_job_details" : String) == "get_job_details") = true := by decide
  rw [if_neg hc1, if_pos hc2]
  dsimp only
  rw [h]
  dsimp only
  split <;> simp [Except.map]

/-- C3 amended: a missing required argument (query for search_jobs,
job_id for get_job_details) is silently replaced by the empty-string
dict default and the tool executes against the data source with that
default; no argument error aborts the call. -/
theorem missing_required_argument_defaulted
    (o : Oracles) (args args2 : FunctionArgs)
    (hq : args.query = none) (hj : args2.job_id = none)
    (resp resp2 : SearchResponse)
    (h1 : o.searchSrc (searchCallOf args) = .ok resp)
    (h2 : o.detailsSrc "" (args2.country.getD "us") = .ok resp2) :
    searchCallOf args =
      ExtCall.search "" (min (args.num_pages.getD 1) 3) (args.country.getD "us")
        (args.date_posted.getD "all") args.employment_types args.job_requirements
        (args.work_from_home.getD false) ∧
    (execute_function_call o "search_jobs" args).map (fun x => x.2.2) =
      .ok [searchCallOf args] ∧
    (execute_function_call o "get_job_details" args2).map (fun x => x.2.2) =
      .ok [ExtCall.details "" (args2.country.getD "us")] := by
  refine ⟨?_, execute_search_trace o args resp h1, ?_⟩
  · unfold searchCallOf
    rw [hq]
    rfl
  · have h2x : o.detailsSrc (args2.job_id.getD "") (args2.country.getD "us") = .ok resp2 := by
      rw [hj]
      exact h2
    have := execute_details_trace o args2 resp2 h2x
    rw [hj] at this
    exact this

/-- Witness for C3 amended at the all-absent argument mapping. -/
theorem missing_required_argument_defaulted_witness :
    searchCallOf emptyArgs =
      ExtCall.search "" (min (emptyArgs.num_pages.getD 1) 3) (emptyArgs.country.getD "us")
        (emptyArgs.date_posted.getD "all") emptyArgs.employment_types
        emptyArgs.job_requirements (emptyArgs.work_from_home.getD false) ∧
    (execute_function_call oEmptySrc "search_jobs" emptyArgs).map (fun x => x.2.2) =
      .ok [searchCallOf emptyArgs] ∧
    (execute_function_call oEmptySrc "get_job_details" emptyArgs).map (fun x => x.2.2) =
      .ok [ExtCall.details "" (emptyArgs.country.getD "us")] :=
  missing_required_argument_defaulted oEmptySrc emptyArgs emptyArgs rfl rfl
    { data := [] } { data := [] } rfl rfl

/-- Claim-side line of C9 as stated: title, employer, location, and a
salary range only when both bounds are present. -/
def claimSummaryLine (job : RawJob) : String :=
  let base := "- " ++ pyOptStr job.job_title ++ " at " ++ pyOptStr job.employer_name
      ++ " (" ++ job.job_location.getD "Location not specified" ++ ")"
  if truthyNat job.job_min_salary && truthyNat job.job_max_salary then
    base ++ " - $" ++ pyCommaFmt (job.job_min_salary.getD 0) ++ "-$"
      ++ pyCommaFmt (job.job_max_salary.getD 0)
  else base

/-- Amended line: as the claim line, except that a result carrying only
the raw job_salary string (without both bounds) gets that raw string
appended as well. -/
def amendedSummaryLine (job : RawJob) : String :=
  let base := "- " ++ pyOptStr job.job_title ++ " at " ++ pyOptStr job.employer_name
      ++ " (" ++ job.job_location.getD "Location not specified" ++ ")"
  if truthyNat job.job_min_salary && truthyNat job.job_max_salary then
    base ++ " - $" ++ pyCommaFmt (job.job_min_salary.getD 0) ++ "-$"
      ++ pyCommaFmt (job.job_max_salary.getD 0)
  else if truthyStr job.job_salary then base ++ " - " ++ job.job_salary.getD ""
  else base

/-- The line builder of the source equals the amended line. -/
theorem jobSummaryLine_eq_amended (job : RawJob) :
    jobSummaryLine job = amendedSummaryLine job := by
  unfold jobSummaryLine amendedSummaryLine
  by_cases h1 : (truthyNat job.job_min_salary && truthyNat job.job_max_salary) = true <;>
    by_cases h2 : truthyStr job.job_salary = true <;>
      simp [h1, h2]

/-- Raw job carrying only a textual salary, no numeric bounds. -/
def jobSalaryOnly : RawJob :=
  { job_title := some "Dev", employer_name := some "Acme",
    job_location := some "NY", job_salary := some "1000 monthly",
    job_min_salary := none, job_max_salary := none,
    job_description := none, job_employment_type := none,
    job_apply_link := none, job_salary_period := none,
    qualifications := [], responsibilities := [] }

/-- Oracles whose search source answers with the single salary-only
job. -/
def oOneJob : Oracles :=
  { firstReply := .error "unused", secondReply := .error "unused",
    searchSrc := fun _ => .ok { data := [jobSalaryOnly] },
    detailsSrc := fun _ _ => .error "unused",
    summarizer := fun _ => .error "unused", persist := .ok () }

/-- C9 counterexample: a result carrying only a raw job_salary and no
bounds produces a summary line that also carries the raw salary string,
not only title, employer and location with an optional range as the
claim enumerates. -/
theorem summary_line_carries_raw_salary :
    (execute_function_call oOneJob "search_jobs"
        { emptyArgs with query := some "backend developer" }).map
      (fun x => x.1.jobs_summary) = .ok (some "- Dev at Acme (NY) - 1000 monthly") ∧
    claimSummaryLine jobSalaryOnly = "- Dev at Acme (NY)" ∧
    ("- Dev at Acme (NY) - 1000 monthly" : String) ≠ "- Dev at Acme (NY)" :=
  ⟨rfl, rfl, by decide⟩

/-- C9 amended: a search execution answered with n results reports the
full count n as total found, its model-facing summary is the newline
join of exactly min(n,10) lines, one per result for the first min(n,10)
results — each line title, employer, location, then the salary range
when both bounds are present, else the raw salary string when that is
present — and an empty result set yields the distinct no_results status
together with an empty, non-null card list. -/
theorem search_payload_counts_and_lines
    (o : Oracles) (args : FunctionArgs) (resp : SearchResponse)
    (h1 : o.searchSrc (searchCallOf args) = .ok resp) :
    (resp.data ≠ [] →
      execute_function_call o "search_jobs" args =
        .ok ({ status := "success", message := none,
               total_jobs_found := some resp.data.length,
               jobs_summary := some (String.intercalate "\n"
                 ((resp.data.take 10).map amendedSummaryLine)),
               details := none },
             CardsPayload.cards (extract_job_cards_from_response resp),
             [searchCallOf args])) ∧
    ((resp.data.take 10).map amendedSummaryLine).length = min resp.data.length 10 ∧
    (resp.data = [] →
      execute_function_call o "search_jobs" args =
        .ok ({ status := "no_results",
               message := some "No jobs found matching the search criteria.",
               total_jobs_found := none, jobs_summary := none, details := none },
             CardsPayload.cards [], [searchCallOf args])) := by
  have hc : (("search_jobs" : String) == "search_jobs") = true := by decide
  have hfun : jobSummaryLine = amendedSummaryLine := funext jobSummaryLine_eq_amended
  refine ⟨?_, ?_, ?_⟩
  · intro hne
    unfold execute_function_call
    rw [if_pos hc, h1]
    dsimp only
    rw [if_pos hne, hfun]
  · rw [List.length_map, List.length_take]
    omega
  · intro hd
    unfold execute_function_call
    rw [if_pos hc, h1]
    dsimp only
    rw [if_neg (by simp [hd])]

/-- One of twelve identical raw results with both salary bounds. -/
def jobN (i : Nat) : RawJob :=
  { job_title := some ("Engineer " ++ toString i), employer_name := some "Acme",
    job_location := some "Remote", job_salary := none,
    job_min_salary := some 50000, job_max_salary := some 90000,
    job_description := none, job_employment_type := none,
    job_apply_link := none, job_salary_period := none,
    qualifications := [], responsibilities := [] }

/-- A data-source answer of twelve results. -/
def respTwelve : SearchResponse := { data := (List.range 12).map jobN }

/-- Oracles whose search source answers with twelve results. -/
def oTwelve : Oracles :=
  { firstReply := .error "unused", secondReply := .error "unused",
    searchSrc := fun _ => .ok respTwelve,
    detailsSrc := fun _ _ => .error "unused",
    summarizer := fun _ => .error "unused", persist := .ok () }

/-- Witness for C9 amended at the twelve-result data source: total
found 12, exactly ten summary lines. -/
theorem search_payload_counts_and_lines_witness :
    ((respTwelve.data ≠ [] →
      execute_function_call oTwelve "search_jobs"
          { emptyArgs with query := some "backend developer" } =
        .ok ({ status := "success", message := none,
               total_jobs_found := some respTwelve.data.length,
               jobs_summary := some (String.intercalate "\n"
                 ((respTwelve.data.take 10).map amendedSummaryLine)),
               details := none },
             CardsPayload.cards (extract_job_cards_from_response respTwelve),
             [searchCallOf { emptyArgs with query := some "backend developer" }])) ∧
    ((respTwelve.data.take 10).map amendedSummaryLine).length =
        min respTwelve.data.length 10 ∧
    (respTwelve.data = [] →
      execute_function_call oTwelve "search_jobs"
          { emptyArgs with query := some "backend developer" } =
        .ok ({ status := "no_results",
               message := some "No jobs found matching the search criteria.",
               total_jobs_found := none, jobs_summary := none, details := none },
             CardsPayload.cards [],
             [searchCallOf { emptyArgs with query := some "backend developer" }]))) ∧
    respTwelve.data.length = 12 ∧ min respTwelve.data.length 10 = 10 :=
  ⟨search_payload_counts_and_lines oTwelve
      { emptyArgs with query := some "backend developer" } respTwelve rfl,
    rfl, rfl⟩

/-- A tool name other than the two known ones falls through to the
error payload with a Python None cards value and no data-source call. -/
theorem execute_unknown_name (o : Oracles) (name : String) (args : FunctionArgs)
    (hn1 : name ≠ "search_jobs") (hn2 : name ≠ "get_job_details") :
    execute_function_call o name args =
      .ok ({ status := "error", message := some ("Unknown function: " ++ name),
             total_jobs_found := none, jobs_summary := none, details := none },
           CardsPayload.pyNone, []) := by
  unfold execute_function_call
  rw [if_neg (by simp [hn1]), if_neg (by simp [hn2])]

/-- C10: a tool request whose name is neither search_jobs nor
get_job_details never raises: tool execution returns a status error
payload naming the unknown function together with a Python None cards
payload, and the turn still completes and persists normally — no error
recorded, the second reply text returned, the exchange appended to the
stored messages. -/
theorem unknown_tool_name_graceful
    (o : Oracles) (chat : StoredChat) (um : String) (name : String)
    (args : FunctionArgs) (r2 : Reply) (t : String)
    (hn1 : name ≠ "search_jobs") (hn2 : name ≠ "get_job_details")
    (h1 : o.firstReply = .ok { parts := [Part.functionCall { name := name, args := args }] })
    (h4 : o.secondReply = .ok r2) (h5 : r2.textAttr = .ok t) (ht : t ≠ "")
    (h6 : o.persist = .ok ()) :
    execute_function_call o name args =
      .ok ({ status := "error", message := some ("Unknown function: " ++ name),
             total_jobs_found := none, jobs_summary := none, details := none },
           CardsPayload.pyNone, []) ∧
    (process_chat_message o chat um none).map
        (fun R => (R.error, R.message, R.stored.messages)) =
      .ok (none, t, chat.messages ++ [Msg.mk "user" um, Msg.mk "bot" t]) := by
  have hexec := execute_unknown_name o name args hn1 hn2
  have hsft : secondFinalText r2 = t := by
    unfold secondFinalText
    rw [h5]
  have hne : secondFinalText r2 ≠ "" := by rw [hsft]; exact ht
  have h2 : (scanParts (Reply.parts
      { parts := [Part.functionCall { name := name, args := args }] })).1 =
      some { name := name, args := args } := rfl
  have htry := tryTurn_tool_cycle o chat um none
    { parts := [Part.functionCall { name := name, args := args }] }
    { name := name, args := args } _ _ _ r2 h1 h2 hexec h4 hne
  refine ⟨hexec, ?_⟩
  unfold process_chat_message
  rw [show pyTruthyOptStr none = false from rfl]
  simp only [Bool.false_eq_true, if_false]
  rw [htry]
  unfold commitTurn
  rw [h6]
  simp [Except.map, hsft]

/-- Oracles of a turn whose reply requests an undeclared tool. -/
def oUnknownTool : Oracles :=
  { firstReply := .ok { parts :=
      [Part.functionCall { name := "send_email", args := emptyArgs }] },
    secondReply := .ok { parts := [Part.text "Sorry, I cannot do that."] },
    searchSrc := fun _ => .error "unused",
    detailsSrc := fun _ _ => .error "unused",
    summarizer := fun _ => .ok "s", persist := .ok () }

/-- Witness for C10 at the undeclared tool name send_email. -/
theorem unknown_tool_name_graceful_witness :
    execute_function_call oUnknownTool "send_email" emptyArgs =
      .ok ({ status := "error", message := some ("Unknown function: " ++ "send_email"),
             total_jobs_found := none, jobs_summary := none, details := none },
           CardsPayload.pyNone, []) ∧
    (process_chat_message oUnknownTool chatFull "email them" none).map
        (fun R => (R.error, R.message, R.stored.messages)) =
      .ok (none, "Sorry, I cannot do that.",
           chatFull.messages ++
             [Msg.mk "user" "email them", Msg.mk "bot" "Sorry, I cannot do that."]) :=
  unknown_tool_name_graceful oUnknownTool chatFull "email them" "send_email" emptyArgs
    { parts := [Part.text "Sorry, I cannot do that."] } "Sorry, I cannot do that."
    (by decide) (by decide) rfl rfl rfl (by decide) rfl

end ChatService
